import Mathlib

/-!
Shallow embedding of the financial formula library of the
Finance_Advisor_Advanced repository
(src/financial_advisor/utils/financial_calculators.py,
src/financial_advisor/utils/data_processor.py, src/financial_advisor/app.py).

Python floats are modelled as rationals (ℚ); a Python computation that
raises ZeroDivisionError is modelled as `none` (the corresponding guard is
written where the source would divide by zero, since the source has no
special case of its own).  Python ints are ℤ (or ℕ where every call site
keeps them non-negative).
-/

namespace FinancialCalculators

/-- Result record of `compound_interest`. -/
structure CompoundResult where
  future_value : ℚ
  total_contributions : ℚ
  total_interest : ℚ
  return_multiple : ℚ
deriving DecidableEq

/-- Embedding of `FinancialCalculators.compound_interest`.  `years` is ℤ
because `retirement_calculator` passes `retirement_age - current_age`,
which the source never checks for sign.  `none` models ZeroDivisionError:
the source divides by `periodic_rate` whenever `monthly_contribution > 0`,
and `(1 + periodic_rate) ** periods` with a zero base and negative exponent
also raises in Python. -/
def compound_interest (principal annual_rate : ℚ) (years : ℤ)
    (monthly_contribution : ℚ := 0) (compounding_frequency : ℤ := 12) :
    Option CompoundResult :=
  let rate_decimal := annual_rate / 100
  let periods : ℤ := years * compounding_frequency
  let periodic_rate := rate_decimal / (compounding_frequency : ℚ)
  if 1 + periodic_rate = 0 ∧ periods < 0 then none
  else if monthly_contribution > 0 ∧ periodic_rate = 0 then none
  else
    let future_value_principal := principal * (1 + periodic_rate) ^ periods
    let future_value_contributions :=
      if monthly_contribution > 0 then
        monthly_contribution * (((1 + periodic_rate) ^ periods - 1) / periodic_rate)
      else 0
    let total_future_value := future_value_principal + future_value_contributions
    let total_contributions := principal + monthly_contribution * (periods : ℚ)
    some { future_value := total_future_value
           total_contributions := total_contributions
           total_interest := total_future_value - total_contributions
           return_multiple :=
             if total_contributions > 0 then total_future_value / total_contributions else 0 }

/-- Future value as computed on line 67 of the source (`sip_calculator`):
`monthly_investment * (((1 + monthly_rate) ** months - 1) / monthly_rate) * (1 + monthly_rate)`. -/
def sip_fv (monthly_investment : ℚ) (years : ℕ) (expected_return : ℚ) : ℚ :=
  let monthly_rate := expected_return / 100 / 12
  monthly_investment * (((1 + monthly_rate) ^ (years * 12) - 1) / monthly_rate)
    * (1 + monthly_rate)

/-- Result record of `sip_calculator`. -/
structure SipResult where
  future_value : ℚ
  total_invested : ℚ
  estimated_returns : ℚ
  return_multiple : ℚ
  xirr : ℚ
deriving DecidableEq

/-- Embedding of `FinancialCalculators.sip_calculator`.  The source divides
by `monthly_rate` and by `total_invested` with no special case, so both
zero denominators surface as `none` (ZeroDivisionError). -/
def sip_calculator (monthly_investment : ℚ) (years : ℕ) (expected_return : ℚ) :
    Option SipResult :=
  let monthly_rate := expected_return / 100 / 12
  let months := years * 12
  if monthly_rate = 0 then none
  else
    let future_value := sip_fv monthly_investment years expected_return
    let total_invested := monthly_investment * (months : ℚ)
    if total_invested = 0 then none
    else
      some { future_value := future_value
             total_invested := total_invested
             estimated_returns := future_value - total_invested
             return_multiple := future_value / total_invested
             xirr := expected_return }

/-- Result record of `emi_calculator`. -/
structure EmiResult where
  emi : ℚ
  total_payment : ℚ
  total_interest : ℚ
  interest_percentage : ℚ
deriving DecidableEq

/-- Embedding of `FinancialCalculators.emi_calculator`.  The denominator
`(1 + monthly_interest_rate) ** months - 1` is zero exactly when the rate
is zero, and `interest_percentage` divides by `loan_amount`; either zero
denominator raises ZeroDivisionError in the source, modelled as `none`. -/
def emi_calculator (loan_amount annual_interest_rate : ℚ) (loan_tenure_years : ℕ) :
    Option EmiResult :=
  let monthly_interest_rate := annual_interest_rate / 100 / 12
  let loan_tenure_months := loan_tenure_years * 12
  if (1 + monthly_interest_rate) ^ loan_tenure_months - 1 = 0 then none
  else
    let emi := loan_amount * monthly_interest_rate *
        ((1 + monthly_interest_rate) ^ loan_tenure_months) /
        ((1 + monthly_interest_rate) ^ loan_tenure_months - 1)
    let total_payment := emi * (loan_tenure_months : ℚ)
    let total_interest := total_payment - loan_amount
    if loan_amount = 0 then none
    else
      some { emi := emi
             total_payment := total_payment
             total_interest := total_interest
             interest_percentage := total_interest / loan_amount * 100 }

/-- Result record of `retirement_calculator`.  `is_sufficient` is the Python
bool `retirement_corpus >= required_corpus`. -/
structure RetirementResult where
  retirement_corpus : ℚ
  required_corpus : ℚ
  is_sufficient : Bool
  shortfall : ℚ
  annual_retirement_expenses : ℚ
  years_to_retirement : ℤ
  retirement_years : ℤ
deriving DecidableEq

/-- Embedding of `FinancialCalculators.retirement_calculator`.  The source
computes `years_to_retirement = retirement_age - current_age` with no sign
check and feeds it to `compound_interest`; `(1 + inflation_rate/100) **
years_to_retirement` raises in Python only for a zero base and negative
exponent, modelled by the guard. -/
def retirement_calculator (current_age retirement_age : ℤ)
    (current_savings monthly_contribution expected_return inflation_rate
      retirement_expenses : ℚ) : Option RetirementResult :=
  let years_to_retirement := retirement_age - current_age
  let retirement_years := 90 - retirement_age
  match compound_interest current_savings expected_return years_to_retirement
      monthly_contribution 12 with
  | none => none
  | some ci =>
    let retirement_corpus := ci.future_value
    if 1 + inflation_rate / 100 = 0 ∧ years_to_retirement < 0 then none
    else
      let inflated_retirement_expenses :=
        retirement_expenses * (1 + inflation_rate / 100) ^ years_to_retirement
      let annual_retirement_expenses := inflated_retirement_expenses * 12
      let required_corpus := annual_retirement_expenses * 25
      some { retirement_corpus := retirement_corpus
             required_corpus := required_corpus
             is_sufficient := decide (retirement_corpus ≥ required_corpus)
             shortfall := max 0 (required_corpus - retirement_corpus)
             annual_retirement_expenses := annual_retirement_expenses
             years_to_retirement := years_to_retirement
             retirement_years := retirement_years }

/-- Embedding of `FinancialCalculators.pmt`.  `rate == 0` divides by `nper`
and the other branch divides by `pvif - 1`; a zero denominator (or a zero
base under a negative exponent) raises in Python, modelled as `none`. -/
def pmt (rate : ℚ) (nper : ℤ) (pv : ℚ) (fv : ℚ := 0) : Option ℚ :=
  if rate = 0 then
    if nper = 0 then none else some (-(fv + pv) / (nper : ℚ))
  else
    if 1 + rate = 0 ∧ nper < 0 then none
    else
      let pvif := (1 + rate) ^ nper
      if pvif - 1 = 0 then none
      else some (-((rate * (fv + pv * pvif)) / (pvif - 1)))

/-- Result record of `goal_planning_calculator`. -/
structure GoalResult where
  goal_amount : ℚ
  future_value_current : ℚ
  additional_needed : ℚ
  monthly_savings_required : ℚ
  is_achievable : Bool
deriving DecidableEq

/-- Embedding of `FinancialCalculators.goal_planning_calculator` (the source
calls `compound_interest` with the default zero contribution, then `pmt`
when more is needed). -/
def goal_planning_calculator (goal_amount current_savings : ℚ)
    (timeline_years : ℤ) (expected_return : ℚ := 8) : Option GoalResult :=
  match compound_interest current_savings expected_return timeline_years 0 12 with
  | none => none
  | some ci =>
    let future_value_current := ci.future_value
    let additional_needed := max 0 (goal_amount - future_value_current)
    let monthly_savings :=
      if additional_needed > 0 then
        pmt (expected_return / 100 / 12) (timeline_years * 12) additional_needed
      else some 0
    match monthly_savings with
    | none => none
    | some ms =>
      some { goal_amount := goal_amount
             future_value_current := future_value_current
             additional_needed := additional_needed
             monthly_savings_required := |ms|
             is_achievable := decide (additional_needed ≥ 0) }

/-! ### Debt payoff simulator (`debt_snowball_calculator`)

The Python routine mutates a list of dicts in place, so the embedding keeps
an explicit store of records and a list of references (indices) into it:
`debt.copy()` appends fresh records to the store, and every later update is
a `List.set` at a copy's index.  The `while any(...)` loop is given explicit
fuel; `none` models the loop never terminating within that fuel. -/

/-- A `debts` list element: dict with `name`, `balance`, `interest_rate`,
`min_payment`. -/
structure Debt where
  name : String
  balance : ℚ
  interest_rate : ℚ
  min_payment : ℚ
deriving DecidableEq

/-- An entry appended to `payoff_plan` when a debt's balance reaches zero:
`{'debt': name, 'payoff_month': month, 'total_interest': monthly_interest}`
(the source stores only that final month's interest in `total_interest`). -/
structure PayoffEntry where
  debt : String
  payoff_month : ℕ
  total_interest : ℚ
deriving DecidableEq

/-- The `method` argument: `'snowball'` or `'avalanche'`. -/
inductive Method
  | snowball
  | avalanche
deriving DecidableEq

/-- Result dict of `debt_snowball_calculator`. -/
structure DebtPlanResult where
  total_months : ℕ
  total_interest_paid : ℚ
  payoff_plan : List PayoffEntry
  method_used : Method
deriving DecidableEq

/-- Sum of the `total_interest` fields of the payoff-plan entries (the
quantity the spec compares with `total_interest_paid`). -/
def planInterestSum (plan : List PayoffEntry) : ℚ :=
  (plan.map PayoffEntry.total_interest).sum

/-- Stable insertion into a sorted list of references: `x` goes in front of
the first `y` with `le x y`, so elements already in the list that compare
equal to `x` stay before it, matching Python's stable `list.sort`. -/
def insertRef (le : ℕ → ℕ → Bool) (x : ℕ) : List ℕ → List ℕ
  | [] => [x]
  | y :: ys => if le x y then x :: y :: ys else y :: insertRef le x ys

/-- Stable sort of the references by the given (total) comparison, modelling
`debts_copy.sort(key=...)`. -/
def sortRefs (le : ℕ → ℕ → Bool) : List ℕ → List ℕ
  | [] => []
  | x :: xs => insertRef le x (sortRefs le xs)

/-- One month of the simulation: the body of the `for debt in debts_copy`
loop.  Walks the references in priority order, skips paid-off debts,
accrues `balance * rate/100/12`, pays `min_payment + monthly_extra`
(zeroing `monthly_extra` after the first active debt), clamps the principal
payment with `min(..., balance)`, and appends a payoff-plan entry when the
new balance is ≤ 0.  (The source's dedup test `debt not in [p['debt'] ...]`
compares a dict against name strings and is therefore always true, so the
append is unconditional there as well.)  Returns the updated store, the
accumulated `total_interest_paid`, and the updated `payoff_plan`. -/
def monthStep (extra : ℚ) (month : ℕ) :
    List ℕ → List Debt → ℚ → ℚ → List PayoffEntry →
      List Debt × ℚ × List PayoffEntry
  | [], store, _, total_interest_paid, payoff_plan =>
      (store, total_interest_paid, payoff_plan)
  | r :: rs, store, monthly_extra, total_interest_paid, payoff_plan =>
    match store.get? r with
    | none => monthStep extra month rs store monthly_extra total_interest_paid payoff_plan
    | some debt =>
      if debt.balance ≤ 0 then
        monthStep extra month rs store monthly_extra total_interest_paid payoff_plan
      else
        let monthly_interest := debt.balance * (debt.interest_rate / 100 / 12)
        let total_payment := debt.min_payment + monthly_extra
        let principal_payment := min (total_payment - monthly_interest) debt.balance
        let newBalance := debt.balance - principal_payment
        let store' := store.set r { debt with balance := newBalance }
        let payoff_plan' :=
          if newBalance ≤ 0 then
            payoff_plan ++ [{ debt := debt.name, payoff_month := month,
                              total_interest := monthly_interest }]
          else payoff_plan
        monthStep extra month rs store' 0 (total_interest_paid + monthly_interest)
          payoff_plan'

/-- The `while any(debt['balance'] > 0 ...)` loop, with explicit fuel:
`none` means the loop had not terminated when the fuel ran out (the source
has no non-convergence guard, so an insufficient payment plan loops
forever).  Returns the final store, `months_to_payoff`,
`total_interest_paid` and `payoff_plan`. -/
def simLoop (extra : ℚ) (refs : List ℕ) :
    ℕ → List Debt → ℕ → ℚ → List PayoffEntry →
      Option (List Debt × ℕ × ℚ × List PayoffEntry)
  | 0, _, _, _, _ => none
  | fuel + 1, store, months_to_payoff, total_interest_paid, payoff_plan =>
    if refs.any fun r =>
        match store.get? r with
        | some d => decide (0 < d.balance)
        | none => false then
      let s := monthStep extra (months_to_payoff + 1) refs store extra
        total_interest_paid payoff_plan
      simLoop extra refs fuel s.1 (months_to_payoff + 1) s.2.1 s.2.2
    else
      some (store, months_to_payoff, total_interest_paid, payoff_plan)

/-- References to the copied records (`n + i` for the i-th debt), stably
sorted for the chosen method: snowball ascending by balance, avalanche
descending by interest rate (`reverse=True`). -/
def priorityRefs (store : List Debt) (n : ℕ) (method : Method) : List ℕ :=
  let copyRefs := (List.range n).map (n + ·)
  let keyOf := fun (f : Debt → ℚ) (r : ℕ) => (((store.get? r).map f).getD 0)
  match method with
  | .snowball =>
      sortRefs (fun a b => decide (keyOf Debt.balance a ≤ keyOf Debt.balance b)) copyRefs
  | .avalanche =>
      sortRefs (fun a b =>
        decide (keyOf Debt.interest_rate b ≤ keyOf Debt.interest_rate a)) copyRefs

/-- Embedding of `FinancialCalculators.debt_snowball_calculator`.  The
caller's records occupy store indices `0..debts.length`; `debt.copy()`
appends fresh copies after them, and the simulation's references point only
at the copies.  Returns the final store together with the result dict
(`none` while the loop has not terminated). -/
def debt_snowball_calculator (debts : List Debt) (extra_payment : ℚ)
    (method : Method) (fuel : ℕ) : List Debt × Option DebtPlanResult :=
  let n := debts.length
  let store := debts ++ debts
  match simLoop extra_payment (priorityRefs store n method) fuel store 0 0 [] with
  | none => (store, none)
  | some (store', months, interest, plan) =>
      (store', some { total_months := months, total_interest_paid := interest,
                      payoff_plan := plan, method_used := method })

end FinancialCalculators

namespace DataProcessor

/-- Input record of `process_user_financial_data` (`user_data` dict): the
fields the function reads.  Expenses are the category → amount mapping as
an association list. -/
structure UserData where
  monthly_income : ℚ
  expenses : List (String × ℚ)
  investment_percentage : ℚ
deriving DecidableEq

/-- The `derived_metrics` dict of `process_user_financial_data`. -/
structure DerivedMetrics where
  total_expenses : ℚ
  monthly_savings : ℚ
  savings_rate : ℚ
  desired_investment : ℚ
deriving DecidableEq

/-- Output of `process_user_financial_data`: the input data plus the
derived metrics and per-category expense ratios. -/
structure ProcessedData where
  base : UserData
  derived_metrics : DerivedMetrics
  expense_ratios : List (String × ℚ)
deriving DecidableEq

/-- Embedding of `DataProcessor.process_user_financial_data`.  The source
computes `savings_rate = (monthly_savings / monthly_income) * 100` and each
expense ratio `amount / monthly_income * 100` with no guard; zero income
raises ZeroDivisionError, modelled as `none`. -/
def process_user_financial_data (user_data : UserData) : Option ProcessedData :=
  let total_expenses := (user_data.expenses.map Prod.snd).sum
  let monthly_savings := user_data.monthly_income - total_expenses
  if user_data.monthly_income = 0 then none
  else
    some { base := user_data
           derived_metrics :=
             { total_expenses := total_expenses
               monthly_savings := monthly_savings
               savings_rate := monthly_savings / user_data.monthly_income * 100
               desired_investment :=
                 user_data.monthly_income * (user_data.investment_percentage / 100) }
           expense_ratios :=
             user_data.expenses.map fun p =>
               (p.1, p.2 / user_data.monthly_income * 100) }

end DataProcessor

namespace FinancialAnalyzer

/-- Output record of `FinancialAnalyzer.calculate_financial_metrics`
(src/financial_advisor/app.py). -/
structure Metrics where
  total_expenses : ℚ
  monthly_savings : ℚ
  desired_investment : ℚ
  savings_rate : ℚ
  expense_ratios : List (String × ℚ)
  health_score : ℚ
deriving DecidableEq

/-- Embedding of `FinancialAnalyzer.calculate_financial_metrics` from
src/financial_advisor/app.py: like the data processor it divides by
`monthly_income` with no guard (savings rate and every expense ratio). -/
def calculate_financial_metrics (user_data : DataProcessor.UserData) :
    Option Metrics :=
  let total_expenses := (user_data.expenses.map Prod.snd).sum
  let monthly_savings := user_data.monthly_income - total_expenses
  let desired_investment := user_data.monthly_income * (user_data.investment_percentage / 100)
  if user_data.monthly_income = 0 then none
  else
    let savings_rate := monthly_savings / user_data.monthly_income * 100
    some { total_expenses := total_expenses
           monthly_savings := monthly_savings
           desired_investment := desired_investment
           savings_rate := savings_rate
           expense_ratios :=
             user_data.expenses.map fun p =>
               (p.1, p.2 / user_data.monthly_income * 100)
           health_score := min 100 (max 0 (savings_rate * 2 + 30)) }

end FinancialAnalyzer

/-! ## Helper lemmas -/

namespace FinancialCalculators

/-- Setting an index at or beyond `n` does not change the first `n`
elements. -/
theorem take_set_of_le {α : Type} (d : α) :
    ∀ (l : List α) (n r : ℕ), n ≤ r → (l.set r d).take n = l.take n := by
  intro l
  induction l with
  | nil => intro n r _; simp
  | cons x xs ih =>
    intro n r h
    cases n with
    | zero => simp
    | succ n =>
      cases r with
      | zero => omega
      | succ r => simpa using ih n r (by omega)

/-- Membership in a stable insertion. -/
theorem mem_insertRef (le : ℕ → ℕ → Bool) (x a : ℕ) :
    ∀ l : List ℕ, a ∈ insertRef le x l ↔ a = x ∨ a ∈ l := by
  intro l
  induction l with
  | nil => simp [insertRef]
  | cons y ys ih =>
    simp only [insertRef]
    split
    · simp
    · simp only [List.mem_cons, ih]
      tauto

/-- The stable sort permutes nothing in or out. -/
theorem mem_sortRefs (le : ℕ → ℕ → Bool) (a : ℕ) :
    ∀ l : List ℕ, a ∈ sortRefs le l ↔ a ∈ l := by
  intro l
  induction l with
  | nil => simp [sortRefs]
  | cons x xs ih => simp [sortRefs, mem_insertRef, ih]

/-- Every reference produced by `priorityRefs` points past the caller's `n`
records (only the appended copies are ever touched). -/
theorem priorityRefs_ge (store : List Debt) (n : ℕ) (method : Method) :
    ∀ r ∈ priorityRefs store n method, n ≤ r := by
  intro r hr
  have hmem : r ∈ (List.range n).map (n + ·) := by
    cases method <;>
      simpa [priorityRefs, mem_sortRefs] using hr
  simp only [List.mem_map, List.mem_range] at hmem
  obtain ⟨i, _, rfl⟩ := hmem
  omega

/-- One month of the simulation never writes below index `n` when every
reference is at least `n`. -/
theorem monthStep_take (extra : ℚ) (month n : ℕ) :
    ∀ (refs : List ℕ) (store : List Debt) (me tip : ℚ) (plan : List PayoffEntry),
      (∀ r ∈ refs, n ≤ r) →
      ((monthStep extra month refs store me tip plan).1).take n = store.take n := by
  intro refs
  induction refs with
  | nil => intro store me tip plan _; rfl
  | cons r rs ih =>
    intro store me tip plan h
    have hr : n ≤ r := h r (List.mem_cons_self r rs)
    have hrs : ∀ x ∈ rs, n ≤ x := fun x hx => h x (List.mem_cons_of_mem r hx)
    rw [monthStep]
    cases hg : store.get? r with
    | none => exact ih store me tip plan hrs
    | some debt =>
      dsimp only
      by_cases hb : debt.balance ≤ 0
      · rw [if_pos hb]
        exact ih store me tip plan hrs
      · rw [if_neg hb]
        rw [ih _ 0 _ _ hrs, take_set_of_le _ _ _ _ hr]

/-- The whole loop never writes below index `n` when every reference is at
least `n`. -/
theorem simLoop_take (extra : ℚ) (refs : List ℕ) (n : ℕ)
    (href : ∀ r ∈ refs, n ≤ r) :
    ∀ (fuel : ℕ) (store : List Debt) (months : ℕ) (tip : ℚ)
      (plan : List PayoffEntry) (out : List Debt × ℕ × ℚ × List PayoffEntry),
      simLoop extra refs fuel store months tip plan = some out →
      out.1.take n = store.take n := by
  intro fuel
  induction fuel with
  | zero => intro store months tip plan out h; simp [simLoop] at h
  | succ fuel ih =>
    intro store months tip plan out h
    rw [simLoop] at h
    split at h
    · have hout := ih _ _ _ _ _ h
      rw [hout, monthStep_take extra (months + 1) n refs store extra tip plan href]
    · cases h
      rfl

/-- The month step keeps every balance non-negative and every interest rate
unchanged in sign: the principal payment is clamped by
`min(total_payment - monthly_interest, balance)`, so the new balance
`balance - principal_payment ≥ balance - balance = 0`.  The invariant also
tracks `planInterestSum ≤ total_interest_paid`: each active debt adds its
(non-negative) monthly interest to the total, and at most that same amount
to the payoff plan. -/
theorem monthStep_inv (extra : ℚ) (month : ℕ) :
    ∀ (refs : List ℕ) (store : List Debt) (me tip : ℚ) (plan : List PayoffEntry),
      (∀ d ∈ store, 0 ≤ d.balance ∧ 0 ≤ d.interest_rate) →
      planInterestSum plan ≤ tip →
      (∀ d ∈ (monthStep extra month refs store me tip plan).1,
          0 ≤ d.balance ∧ 0 ≤ d.interest_rate) ∧
      planInterestSum (monthStep extra month refs store me tip plan).2.2 ≤
        (monthStep extra month refs store me tip plan).2.1 := by
  intro refs
  induction refs with
  | nil => intro store me tip plan hinv hsum; exact ⟨hinv, hsum⟩
  | cons r rs ih =>
    intro store me tip plan hinv hsum
    rw [monthStep]
    cases hg : store.get? r with
    | none => exact ih store me tip plan hinv hsum
    | some debt =>
      dsimp only
      have hdebt : debt ∈ store := List.get?_mem hg
      by_cases hb : debt.balance ≤ 0
      · rw [if_pos hb]
        exact ih store me tip plan hinv hsum
      · rw [if_neg hb]
        have hbpos : 0 < debt.balance := lt_of_not_le hb
        have hint : 0 ≤ debt.balance * (debt.interest_rate / 100 / 12) := by
          have := (hinv debt hdebt).2
          positivity
        apply ih
        · intro d hd
          rcases List.mem_or_eq_of_mem_set hd with hmem | rfl
          · exact hinv d hmem
          · constructor
            · have hmin : min (debt.min_payment + me -
                  debt.balance * (debt.interest_rate / 100 / 12)) debt.balance
                  ≤ debt.balance := min_le_right _ _
              dsimp only
              linarith
            · exact (hinv debt hdebt).2
        · by_cases hz : debt.balance -
              min (debt.min_payment + me - debt.balance * (debt.interest_rate / 100 / 12))
                debt.balance ≤ 0
          · rw [if_pos hz]
            simp only [planInterestSum, List.map_append, List.sum_append,
              List.map_cons, List.sum_cons, List.map_nil, List.sum_nil]
            have : planInterestSum plan ≤ tip := hsum
            simp only [planInterestSum] at this
            linarith
          · rw [if_neg hz]
            linarith

/-- Balance non-negativity alone is preserved by one month (no assumption
on the rates): the clamp `min(..., balance)` never lets a balance go below
zero. -/
theorem monthStep_balances_nonneg (extra : ℚ) (month : ℕ) :
    ∀ (refs : List ℕ) (store : List Debt) (me tip : ℚ) (plan : List PayoffEntry),
      (∀ d ∈ store, 0 ≤ d.balance) →
      ∀ d ∈ (monthStep extra month refs store me tip plan).1, 0 ≤ d.balance := by
  intro refs
  induction refs with
  | nil => intro store me tip plan hinv; exact hinv
  | cons r rs ih =>
    intro store me tip plan hinv
    rw [monthStep]
    cases hg : store.get? r with
    | none => exact ih store me tip plan hinv
    | some debt =>
      dsimp only
      by_cases hb : debt.balance ≤ 0
      · rw [if_pos hb]
        exact ih store me tip plan hinv
      · rw [if_neg hb]
        apply ih
        intro d hd
        rcases List.mem_or_eq_of_mem_set hd with hmem | rfl
        · exact hinv d hmem
        · have hmin : min (debt.min_payment + me -
              debt.balance * (debt.interest_rate / 100 / 12)) debt.balance
              ≤ debt.balance := min_le_right _ _
          dsimp only
          linarith

/-- Balance non-negativity alone is preserved by the whole loop. -/
theorem simLoop_balances_nonneg (extra : ℚ) (refs : List ℕ) :
    ∀ (fuel : ℕ) (store : List Debt) (months : ℕ) (tip : ℚ)
      (plan : List PayoffEntry) (out : List Debt × ℕ × ℚ × List PayoffEntry),
      (∀ d ∈ store, 0 ≤ d.balance) →
      simLoop extra refs fuel store months tip plan = some out →
      ∀ d ∈ out.1, 0 ≤ d.balance := by
  intro fuel
  induction fuel with
  | zero => intro store months tip plan out _ h; simp [simLoop] at h
  | succ fuel ih =>
    intro store months tip plan out hinv h
    rw [simLoop] at h
    split at h
    · exact ih _ _ _ _ _
        (monthStep_balances_nonneg extra (months + 1) refs store extra tip plan hinv) h
    · cases h
      exact hinv

/-- With a single active debt of balance ≥ 600 at 20% annual interest and a
10-unit minimum payment, the monthly interest (`balance/60 ≥ 10`) consumes
the whole payment, the balance never drops (it stays ≥ 600), the loop
guard stays true, and the loop exhausts any amount of fuel. -/
theorem insufficient_loop_aux (hd : Debt) :
    ∀ (fuel : ℕ) (b : ℚ), 600 ≤ b →
      ∀ (months : ℕ) (tip : ℚ) (plan : List PayoffEntry),
        simLoop 0 [1] fuel [hd, ⟨"card", b, 20, 10⟩] months tip plan = none := by
  intro fuel
  induction fuel with
  | zero => intros; rfl
  | succ fuel ih =>
    intro b hb months tip plan
    have hrate : (20 : ℚ) / 100 / 12 = 1 / 60 := by norm_num
    have h1 : ¬ (b ≤ 0) := by linarith
    rw [simLoop, if_pos]
    case hc =>
      simp only [List.any_cons, List.any_nil, List.get?, Bool.or_false,
        decide_eq_true_eq]
      linarith
    have hmin : min (10 + 0 - b * ((20 : ℚ) / 100 / 12)) b
        = 10 + 0 - b * (1 / 60) := by
      rw [hrate]
      apply min_eq_left
      linarith
    have hms : monthStep 0 (months + 1) [1] [hd, ⟨"card", b, 20, 10⟩] 0 tip plan
        = ([hd, ⟨"card", b - (10 + 0 - b * (1 / 60)), 20, 10⟩],
            tip + b * (20 / 100 / 12), plan) := by
      simp only [monthStep, List.get?, List.set]
      rw [if_neg h1, hmin]
      rw [if_neg (show ¬ (b - (10 + 0 - b * (1 / 60)) ≤ 0) by linarith)]
    rw [hms]
    exact ih (b - (10 + 0 - b * (1 / 60))) (by linarith) (months + 1)
      (tip + b * (20 / 100 / 12)) plan

/-- The loop keeps the `monthStep_inv` invariant across months. -/
theorem simLoop_inv (extra : ℚ) (refs : List ℕ) :
    ∀ (fuel : ℕ) (store : List Debt) (months : ℕ) (tip : ℚ)
      (plan : List PayoffEntry) (out : List Debt × ℕ × ℚ × List PayoffEntry),
      (∀ d ∈ store, 0 ≤ d.balance ∧ 0 ≤ d.interest_rate) →
      planInterestSum plan ≤ tip →
      simLoop extra refs fuel store months tip plan = some out →
      (∀ d ∈ out.1, 0 ≤ d.balance ∧ 0 ≤ d.interest_rate) ∧
        planInterestSum out.2.2.2 ≤ out.2.2.1 := by
  intro fuel
  induction fuel with
  | zero => intro store months tip plan out _ _ h; simp [simLoop] at h
  | succ fuel ih =>
    intro store months tip plan out hinv hsum h
    rw [simLoop] at h
    split at h
    · have hstep := monthStep_inv extra (months + 1) refs store extra tip plan hinv hsum
      exact ih _ _ _ _ _ hstep.1 hstep.2 h
    · cases h
      exact ⟨hinv, hsum⟩

end FinancialCalculators

/-! ## Claim theorems -/

namespace FinancialCalculators

/-- C8: throughout every month of the debt payoff simulation, starting from
accounts with non-negative balances, each account's balance stays
non-negative: the principal payment is clamped by
`min(total_payment - monthly_interest, balance)`, so no balance ever goes
below zero — after any single month step, and at the end of the loop
whenever it terminates. -/
theorem debt_balances_stay_nonneg (extra : ℚ) (month : ℕ) (refs : List ℕ)
    (store : List Debt) (me tip : ℚ) (plan : List PayoffEntry)
    (fuel months : ℕ)
    (h : ∀ d ∈ store, 0 ≤ d.balance) :
    (∀ d ∈ (monthStep extra month refs store me tip plan).1, 0 ≤ d.balance) ∧
      ∀ out, simLoop extra refs fuel store months tip plan = some out →
        ∀ d ∈ out.1, 0 ≤ d.balance := by
  constructor
  · exact monthStep_balances_nonneg extra month refs store me tip plan h
  · intro out hout
    exact simLoop_balances_nonneg extra refs fuel store months tip plan out h hout

/-- C2 (code evidence): for the debt `{balance: 1000, rate: 20,
min_payment: 10}` with no extra payment, the total available payment (10)
does not exceed the monthly interest accrued (1000 * 20/100/12 ≈ 16.7), yet
the simulator has no non-convergence guard: its loop never terminates, for
any amount of fuel, instead of reporting a diagnostic. -/
theorem insufficient_payment_never_terminates (fuel : ℕ) :
    (debt_snowball_calculator [⟨"card", 1000, 20, 10⟩] 0 .snowball fuel).2 = none := by
  have h := insufficient_loop_aux ⟨"card", 1000, 20, 10⟩ fuel 1000 (by norm_num) 0 0 []
  simp only [debt_snowball_calculator]
  norm_num [priorityRefs, sortRefs, insertRef, List.range_succ]
  rw [h]

/-- C3 counterexample: for the single debt `{balance: 1000, rate: 12,
min_payment: 600}` the run takes two months; `total_interest_paid`
accumulates the interest of both months (10 + 4.1 = 14.1) but the payoff
plan's single entry records only the final month's interest (4.1), so the
claimed equality fails. -/
theorem plan_interest_sum_counterexample :
    (debt_snowball_calculator [⟨"card", 1000, 12, 600⟩] 0 .snowball 3).2 =
      some { total_months := 2, total_interest_paid := 141/10,
             payoff_plan := [⟨"card", 2, 41/10⟩], method_used := .snowball } ∧
    planInterestSum [⟨"card", 2, 41/10⟩] = 41/10 ∧ ((41 : ℚ)/10) ≠ 141/10 := by
  refine ⟨?_, by norm_num [planInterestSum], by norm_num⟩
  norm_num [debt_snowball_calculator, priorityRefs, simLoop, monthStep, sortRefs,
    insertRef, List.range_succ]

/-- C3 (amended): each payoff-plan entry records only the interest of its
debt's payoff month, so for every terminating run on debts with
non-negative balances and rates the recorded sum is at most (not equal to)
`total_interest_paid`. -/
theorem plan_interest_sum_le_total (debts : List Debt) (extra_payment : ℚ)
    (method : Method) (fuel : ℕ) (res : DebtPlanResult)
    (hd : ∀ d ∈ debts, 0 ≤ d.balance ∧ 0 ≤ d.interest_rate)
    (h : (debt_snowball_calculator debts extra_payment method fuel).2 = some res) :
    planInterestSum res.payoff_plan ≤ res.total_interest_paid := by
  simp only [debt_snowball_calculator] at h
  cases hs : simLoop extra_payment (priorityRefs (debts ++ debts) debts.length method)
      fuel (debts ++ debts) 0 0 [] with
  | none => rw [hs] at h; cases h
  | some out =>
    obtain ⟨store', months, tip, plan⟩ := out
    rw [hs] at h
    simp only [Option.some.injEq] at h
    have hinv0 : ∀ d ∈ debts ++ debts, 0 ≤ d.balance ∧ 0 ≤ d.interest_rate := by
      intro d hd'
      rcases List.mem_append.1 hd' with h1 | h1 <;> exact hd d h1
    have hloop := simLoop_inv extra_payment _ fuel (debts ++ debts) 0 0 [] _ hinv0
      (by simp [planInterestSum]) hs
    rw [← h]
    exact hloop.2

/-- C3 witness: the amended bound holds on the two-month concrete run used
for the counterexample (4.1 ≤ 14.1). -/
theorem plan_interest_sum_le_total_witness :
    planInterestSum ({ total_months := 2, total_interest_paid := 141/10,
                       payoff_plan := [⟨"card", 2, 41/10⟩],
                       method_used := .snowball } : DebtPlanResult).payoff_plan ≤
      ({ total_months := 2, total_interest_paid := 141/10,
         payoff_plan := [⟨"card", 2, 41/10⟩],
         method_used := .snowball } : DebtPlanResult).total_interest_paid :=
  plan_interest_sum_le_total [⟨"card", 1000, 12, 600⟩] 0 .snowball 3 _
    (by intro d hd; rw [List.mem_singleton] at hd; subst hd; norm_num)
    (by norm_num [debt_snowball_calculator, priorityRefs, simLoop, monthStep,
      sortRefs, insertRef, List.range_succ])

/-- C8 witness: a concrete one-debt store with non-negative balance keeps
all balances non-negative after a month step and after a terminating run. -/
theorem debt_balances_stay_nonneg_witness :
    (∀ d ∈ (monthStep 0 1 [0] [⟨"a", 5, 12, 1⟩] 0 0 []).1, 0 ≤ d.balance) ∧
      ∀ out, simLoop 0 [0] 10 [⟨"a", 5, 12, 1⟩] 0 0 [] = some out →
        ∀ d ∈ out.1, 0 ≤ d.balance :=
  debt_balances_stay_nonneg 0 1 [0] [⟨"a", 5, 12, 1⟩] 0 0 [] 10 0
    (by intro d hd; rw [List.mem_singleton] at hd; subst hd; norm_num)

/-- C10: the debt payoff simulator operates only on per-record copies
(store indices `≥ debts.length`), so after the call the caller's records —
the first `debts.length` entries of the store — are exactly the input
list, with balances, rates and minimum payments unchanged. -/
theorem debt_calculator_preserves_caller_list (debts : List Debt)
    (extra_payment : ℚ) (method : Method) (fuel : ℕ) :
    ((debt_snowball_calculator debts extra_payment method fuel).1).take debts.length
      = debts := by
  have href := priorityRefs_ge (debts ++ debts) debts.length method
  unfold debt_snowball_calculator
  cases hs : simLoop extra_payment (priorityRefs (debts ++ debts) debts.length method)
      fuel (debts ++ debts) 0 0 [] with
  | none =>
    simp only [hs]
    exact List.take_left debts debts
  | some out =>
    obtain ⟨store', months, interest, plan⟩ := out
    have htake := simLoop_take extra_payment _ debts.length href fuel (debts ++ debts)
      0 0 [] _ hs
    simp only [hs]
    rw [htake]
    exact List.take_left debts debts

end FinancialCalculators

namespace FinancialCalculators

/-- C1 (code evidence): with an annual rate of exactly 0 none of the
formulas special-cases the zero denominator, so the SIP calculator, the
EMI calculator and the compound-interest calculator with a positive
monthly contribution all raise a division error (modelled as `none`)
instead of returning the simple linear no-interest sum. -/
theorem zero_rate_division_raises :
    sip_calculator 100 10 0 = none ∧
      emi_calculator 1000 0 10 = none ∧
      compound_interest 1000 0 10 100 12 = none := by
  refine ⟨?_, ?_, ?_⟩
  · norm_num [sip_calculator]
  · norm_num [emi_calculator]
  · norm_num [compound_interest]

/-- C5 (code evidence): with `retirement_age = 50 < current_age = 60` the
retirement calculator neither signals a domain error nor clamps: it
silently returns a result computed from the negative horizon
`years_to_retirement = -10`. -/
theorem negative_horizon_silently_computed :
    (retirement_calculator 60 50 1000 0 0 0 100).map
      (fun r => r.years_to_retirement) = some (-10) := by
  norm_num [retirement_calculator, compound_interest]

/-- C9: at the zero-rate boundary `goal_planning(1000000, 0, 10, 0)` the
calculator returns without error and `monthly_savings_required` equals
`1000000 / 120` exactly (the `rate == 0` branch of `pmt` divides the
shortfall evenly over the 120 months). -/
theorem goal_planning_zero_rate_exact :
    (goal_planning_calculator 1000000 0 10 0).map
      (fun r => r.monthly_savings_required) = some (1000000 / 120) := by
  norm_num [goal_planning_calculator, compound_interest, pmt]

/-- C6: whenever the EMI calculator returns on positive principal,
non-negative rate and positive tenure, its record satisfies
`total_payment - total_interest = principal` exactly, because
`total_interest` is defined as `total_payment - loan_amount`. -/
theorem emi_total_payment_minus_interest (loan_amount annual_interest_rate : ℚ)
    (loan_tenure_years : ℕ) (res : EmiResult)
    (hp : 0 < loan_amount) (hr : 0 ≤ annual_interest_rate)
    (ht : 0 < loan_tenure_years)
    (h : emi_calculator loan_amount annual_interest_rate loan_tenure_years = some res) :
    res.total_payment - res.total_interest = loan_amount := by
  simp only [emi_calculator] at h
  split at h
  · cases h
  · split at h
    · cases h
    · simp only [Option.some.injEq] at h
      rw [← h]
      ring

/-- C6 witness: the concrete loan (1, 1200% annual, 1 year) satisfies the
round-trip identity. -/
theorem emi_total_payment_minus_interest_witness :
    ({ emi := 1 * 1 * 2 ^ 12 / (2 ^ 12 - 1),
       total_payment := 1 * 1 * 2 ^ 12 / (2 ^ 12 - 1) * 12,
       total_interest := 1 * 1 * 2 ^ 12 / (2 ^ 12 - 1) * 12 - 1,
       interest_percentage := (1 * 1 * 2 ^ 12 / (2 ^ 12 - 1) * 12 - 1) / 1 * 100 } :
        EmiResult).total_payment -
      ({ emi := 1 * 1 * 2 ^ 12 / (2 ^ 12 - 1),
         total_payment := 1 * 1 * 2 ^ 12 / (2 ^ 12 - 1) * 12,
         total_interest := 1 * 1 * 2 ^ 12 / (2 ^ 12 - 1) * 12 - 1,
         interest_percentage := (1 * 1 * 2 ^ 12 / (2 ^ 12 - 1) * 12 - 1) / 1 * 100 } :
          EmiResult).total_interest = 1 :=
  emi_total_payment_minus_interest 1 1200 1 _ (by norm_num) (by norm_num)
    (by norm_num) (by norm_num [emi_calculator])

end FinancialCalculators

namespace DataProcessor

/-- C4 (code evidence): with `monthly_income = 0` the savings-rate ratio
(and every expense ratio) divides by zero with no guard, in both the data
processor and the app's metric calculation: the caller crashes with a
ZeroDivisionError (modelled as `none`) instead of receiving a guarded
result. -/
theorem savings_rate_zero_income_raises :
    process_user_financial_data ⟨0, [("rent", 10)], 50⟩ = none ∧
      FinancialAnalyzer.calculate_financial_metrics ⟨0, [("rent", 10)], 50⟩ = none := by
  constructor
  · norm_num [process_user_financial_data]
  · norm_num [FinancialAnalyzer.calculate_financial_metrics]

end DataProcessor

namespace FinancialCalculators

/-- A successful SIP call returns exactly the `sip_fv` future value, and
can only succeed when the rate is non-zero (the zero rate raises). -/
theorem sip_calculator_future_value (m : ℚ) (y : ℕ) (r : ℚ) (res : SipResult)
    (h : sip_calculator m y r = some res) :
    res.future_value = sip_fv m y r ∧ r ≠ 0 := by
  simp only [sip_calculator] at h
  split at h
  · cases h
  · rename_i hq
    split at h
    · cases h
    · simp only [Option.some.injEq] at h
      refine ⟨by rw [← h], fun hr0 => hq ?_⟩
      rw [hr0]
      norm_num

/-- The SIP future value is the monthly investment times the sum of the
monthly growth factors `(1+q)^1 .. (1+q)^n` (an annuity-due geometric
sum), whenever the monthly rate `q` is non-zero. -/
theorem sip_fv_eq_sum (m : ℚ) (y : ℕ) (r : ℚ) (hr : r ≠ 0) :
    sip_fv m y r = m * ∑ i in Finset.range (y * 12), (1 + r / 100 / 12) ^ (i + 1) := by
  have hq : r / 100 / 12 ≠ 0 := by
    intro h
    rw [div_eq_zero_iff, div_eq_zero_iff] at h
    rcases h with (h | h) | h <;> simp_all
  have hx : (1 + r / 100 / 12) ≠ 1 := fun h => hq (by linarith)
  have hg := geom_sum_eq hx (y * 12)
  rw [add_sub_cancel_left] at hg
  simp only [sip_fv]
  rw [mul_assoc, ← hg, Finset.sum_mul]
  congr 1
  exact Finset.sum_congr rfl fun i _ => (pow_succ _ _).symm

/-- Monotonicity of the SIP future value in the rate, valid as long as the
monthly growth factor stays non-negative (annual rate ≥ -1200%). -/
theorem sip_fv_mono_rate (m : ℚ) (y : ℕ) (r₁ r₂ : ℚ) (hm : 0 ≤ m)
    (hlow : -1200 ≤ r₁) (h12 : r₁ ≤ r₂) (h1 : r₁ ≠ 0) (h2 : r₂ ≠ 0) :
    sip_fv m y r₁ ≤ sip_fv m y r₂ := by
  rw [sip_fv_eq_sum m y r₁ h1, sip_fv_eq_sum m y r₂ h2]
  apply mul_le_mul_of_nonneg_left _ hm
  apply Finset.sum_le_sum
  intro i _
  apply pow_le_pow_left₀ (by linarith) (by linarith)

/-- Monotonicity of the SIP future value in the number of years, valid as
long as the monthly growth factor stays non-negative. -/
theorem sip_fv_mono_years (m : ℚ) (y₁ y₂ : ℕ) (r : ℚ) (hm : 0 ≤ m)
    (hlow : -1200 ≤ r) (hy : y₁ ≤ y₂) (hr : r ≠ 0) :
    sip_fv m y₁ r ≤ sip_fv m y₂ r := by
  rw [sip_fv_eq_sum m y₁ r hr, sip_fv_eq_sum m y₂ r hr]
  apply mul_le_mul_of_nonneg_left _ hm
  apply Finset.sum_le_sum_of_subset_of_nonneg
  · exact Finset.range_subset.2 (Nat.mul_le_mul_right 12 hy)
  · intro i _ _
    apply pow_nonneg
    linarith

/-- C7 counterexample: at annual rates -3600% and -2400% (monthly rates -3
and -2) the SIP future value strictly decreases as the rate increases
(2730 at -3600 versus 0 at -2400), so the future value is not monotone in
the rate over all rates. -/
theorem sip_monotone_counterexample :
    ((-3600 : ℚ) < -2400) ∧
      (sip_calculator 1 1 (-3600)).map SipResult.future_value = some 2730 ∧
      (sip_calculator 1 1 (-2400)).map SipResult.future_value = some 0 ∧
      ¬ ((2730 : ℚ) ≤ 0) := by
  refine ⟨by norm_num, ?_, ?_, by norm_num⟩
  · norm_num [sip_calculator, sip_fv]
  · norm_num [sip_calculator, sip_fv]

/-- C7 (amended): for monthly_investment ≥ 0, years > 0 and annual rates
not below -1200% (so the monthly growth factor `1 + rate/100/12` stays
non-negative), the SIP calculator's future value is monotonically
non-decreasing in the rate and in the number of years, holding the other
inputs fixed, over all inputs on which the calculator returns. -/
theorem sip_future_value_monotone (m : ℚ) (y y₁ y₂ : ℕ) (r r₁ r₂ : ℚ)
    (res₁ res₂ res₃ res₄ : SipResult)
    (hm : 0 ≤ m) (hy : 0 < y) (hy₁ : 0 < y₁) (hy₁₂ : y₁ ≤ y₂)
    (hr₁ : -1200 ≤ r₁) (hr₁₂ : r₁ ≤ r₂) (hr : -1200 ≤ r)
    (e₁ : sip_calculator m y r₁ = some res₁)
    (e₂ : sip_calculator m y r₂ = some res₂)
    (e₃ : sip_calculator m y₁ r = some res₃)
    (e₄ : sip_calculator m y₂ r = some res₄) :
    res₁.future_value ≤ res₂.future_value ∧
      res₃.future_value ≤ res₄.future_value := by
  obtain ⟨hv₁, hq₁⟩ := sip_calculator_future_value m y r₁ res₁ e₁
  obtain ⟨hv₂, hq₂⟩ := sip_calculator_future_value m y r₂ res₂ e₂
  obtain ⟨hv₃, hq₃⟩ := sip_calculator_future_value m y₁ r res₃ e₃
  obtain ⟨hv₄, _⟩ := sip_calculator_future_value m y₂ r res₄ e₄
  constructor
  · rw [hv₁, hv₂]
    exact sip_fv_mono_rate m y r₁ r₂ hm hr₁ hr₁₂ hq₁ hq₂
  · rw [hv₃, hv₄]
    exact sip_fv_mono_years m y₁ y₂ r hm hr hy₁₂ hq₃

/-- C7 witness: at monthly investment 1 and one year, raising the annual
rate from 1200% to 2400% raises the future value (8190 ≤ 797160), and at
rate 1200% extending one year to two raises it (8190 ≤ 33554430). -/
theorem sip_future_value_monotone_witness :
    ({ future_value := 8190, total_invested := 12, estimated_returns := 8178,
       return_multiple := 8190 / 12, xirr := 1200 } : SipResult).future_value ≤
      ({ future_value := 797160, total_invested := 12, estimated_returns := 797148,
         return_multiple := 797160 / 12, xirr := 2400 } : SipResult).future_value ∧
      ({ future_value := 8190, total_invested := 12, estimated_returns := 8178,
         return_multiple := 8190 / 12, xirr := 1200 } : SipResult).future_value ≤
        ({ future_value := 33554430, total_invested := 24,
           estimated_returns := 33554406,
           return_multiple := 33554430 / 24, xirr := 1200 } : SipResult).future_value :=
  sip_future_value_monotone 1 1 1 2 1200 1200 2400 _ _ _ _
    (by norm_num) (by norm_num) (by norm_num) (by norm_num)
    (by norm_num) (by norm_num) (by norm_num)
    (by norm_num [sip_calculator, sip_fv]) (by norm_num [sip_calculator, sip_fv])
    (by norm_num [sip_calculator, sip_fv]) (by norm_num [sip_calculator, sip_fv])

end FinancialCalculators
